import Mathlib

/-!
Verification of the expression type-system / resolution engine of the
`vector` repository, centred on the unary boolean negation expression
(`lib/vrl/compiler/src/expression/not.rs`) and two event transforms
(`src/transforms/sample.rs`, `src/transforms/split.rs`).

Machine integers (`u64`) are modelled as `Nat` with explicit `% 2 ^ 64`
where an overflow could occur; Rust `Result` is modelled as `Except`,
a Rust panic (division by zero, `todo!()`) as an empty outcome
(`Option.none` / a dedicated error value, as documented at each site).
-/

namespace Vrl

/-- Modelled from the spec: the primitive value shapes a `Kind` set may
contain (boolean, integer, float, string/bytes, timestamp, regex, array,
object, null).  The `Kind`/`Value` model lives outside the provided
source files. -/
inductive KindPrim where
  | boolean
  | integer
  | float
  | bytes
  | timestamp
  | regex
  | array
  | object
  | null
deriving DecidableEq, Repr

/-- Modelled from the spec: a `Kind` is a set of primitive value shapes;
we represent the set by one membership flag per shape. -/
structure Kind where
  boolean : Bool := false
  integer : Bool := false
  float : Bool := false
  bytes : Bool := false
  timestamp : Bool := false
  regex : Bool := false
  array : Bool := false
  object : Bool := false
  null : Bool := false
deriving DecidableEq, Repr

/-- The kind-set containing exactly the boolean shape. -/
def Kind.booleanKind : Kind := { boolean := true }

/-- Membership of a primitive shape in a kind-set. -/
def Kind.contains (k : Kind) : KindPrim → Bool
  | .boolean => k.boolean
  | .integer => k.integer
  | .float => k.float
  | .bytes => k.bytes
  | .timestamp => k.timestamp
  | .regex => k.regex
  | .array => k.array
  | .object => k.object
  | .null => k.null

/-- Modelled from the spec: a kind-set is "boolean" when it is exactly
`\x7bboolean\x7d`. -/
def Kind.is_boolean (k : Kind) : Bool := k == Kind.booleanKind

/-- Modelled from the spec: the human-readable rendering of a kind-set,
used in the context label of the non-boolean-negation diagnostic
(a string expression "resolves to string", etc.). -/
def Kind.render (k : Kind) : String :=
  let names :=
    (if k.boolean then ["boolean"] else []) ++
    (if k.integer then ["integer"] else []) ++
    (if k.float then ["float"] else []) ++
    (if k.bytes then ["string"] else []) ++
    (if k.timestamp then ["timestamp"] else []) ++
    (if k.regex then ["regex"] else []) ++
    (if k.array then ["array"] else []) ++
    (if k.object then ["object"] else []) ++
    (if k.null then ["null"] else [])
  String.intercalate " or " names

/-- Modelled from the spec: `TypeDef = \x7b kind, fallible, abortable \x7d`,
the computed static type of an expression. -/
structure TypeDef where
  kind : Kind
  fallible : Bool
  abortable : Bool
deriving DecidableEq, Repr

/-- Source `TypeDef::boolean()`: kind exactly boolean, no effect flags. -/
def TypeDef.booleanDef : TypeDef := ⟨Kind.booleanKind, false, false⟩

/-- Source `TypeDef::is_boolean`: the kind-set is exactly `\x7bboolean\x7d`. -/
def TypeDef.is_boolean (td : TypeDef) : Bool := td.kind.is_boolean

def TypeDef.is_fallible (td : TypeDef) : Bool := td.fallible

def TypeDef.is_abortable (td : TypeDef) : Bool := td.abortable

/-- Source `TypeDef::with_fallibility`: builder returning a new value. -/
def TypeDef.with_fallibility (td : TypeDef) (f : Bool) : TypeDef :=
  { td with fallible := f }

/-- Source `TypeDef::with_abortability`: builder returning a new value. -/
def TypeDef.with_abortability (td : TypeDef) (a : Bool) : TypeDef :=
  { td with abortable := a }

/-- Modelled from the spec: the runtime `Value` tagged union mirroring
`Kind`'s shapes.  Floats are carried as their 64-bit pattern; bytes as a
string. -/
inductive Value where
  | boolean (b : Bool)
  | integer (i : Int)
  | float (bits : Nat)
  | bytes (s : String)
  | timestamp (t : Int)
  | regex (r : String)
  | array (vs : List Value)
  | object (fs : List (String × Value))
  | null

/-- The concrete shape of a runtime value. -/
def Value.kindOf : Value → KindPrim
  | .boolean _ => .boolean
  | .integer _ => .integer
  | .float _ => .float
  | .bytes _ => .bytes
  | .timestamp _ => .timestamp
  | .regex _ => .regex
  | .array _ => .array
  | .object _ => .object
  | .null => .null

/-- Modelled from the spec: a typed runtime error — either a value/kind
mismatch discovered during coercion, or a generic message. -/
inductive RuntimeError where
  | typeMismatch (expected got : KindPrim)
  | message (s : String)
deriving DecidableEq, Repr

/-- Modelled from the spec: `VrlValueConvert::try_boolean` — coerce a
value to boolean, failing with a typed runtime error when the concrete
kind deviates from boolean. -/
def Value.try_boolean : Value → Except RuntimeError Bool
  | .boolean b => .ok b
  | v => .error (.typeMismatch .boolean v.kindOf)

/-- Modelled from the spec: the outcome of resolving an expression —
a value, a typed runtime error, or a deliberate abort (the third,
distinct signal described by §7 of the spec). -/
inductive Outcome where
  | ok (v : Value)
  | error (e : RuntimeError)
  | abort

/-- Returns `true` exactly on the `RuntimeError` branch of an outcome. -/
def Outcome.isError : Outcome → Bool
  | .error _ => true
  | _ => false

/-- Modelled from the spec: the local scope of the compile-time
environment — lexical identifier bindings. -/
def LocalEnv := List (String × TypeDef)

/-- Modelled from the spec: the external scope of the compile-time
environment — the event schema as a kind-set plus global facts. -/
structure ExternalEnv where
  target : Kind := {}

/-- Modelled from the spec: the runtime `Context` — the current event's
field values. -/
structure Context where
  event : List (String × Value) := []

/-- Modelled from the spec: an already-validated expression of the
closed variant set, abstracted to the variant contract the spec
requires of every sub-expression: `resolve`, `type_def` and `format`.
The concrete variant framework is not among the provided source
files, so an inner expression is any implementation of this contract. -/
structure Expr where
  resolve : Context → Outcome
  typeDef : LocalEnv × ExternalEnv → TypeDef
  format : String

/-- Modelled from the spec: `Span` — a byte range into the source text,
purely advisory. -/
structure Span where
  start : Nat
  stop : Nat
deriving DecidableEq, Repr

/-- Modelled from the spec: a syntax `Node` pairing a span with the
expression it covers; `take` splits it into its parts. -/
structure Node where
  span : Span
  expr : Expr

def Node.take (n : Node) : Span × Expr := (n.span, n.expr)

/-- Modelled from the spec: the role of a diagnostic label. -/
inductive LabelRole where
  | primary
  | context
deriving DecidableEq, Repr

/-- Modelled from the spec: a labeled span of a diagnostic. -/
structure Label where
  message : String
  span : Span
  role : LabelRole
deriving DecidableEq, Repr

/-- Source `Label::primary`. -/
def Label.primary (msg : String) (sp : Span) : Label := ⟨msg, sp, .primary⟩

/-- Source `Label::context`. -/
def Label.context (msg : String) (sp : Span) : Label := ⟨msg, sp, .context⟩

/-- Modelled from the spec: advisory notes attached to a diagnostic,
restricted to the variants the negation error uses. -/
inductive Note where
  | CoerceValue
  | SeeDocs (topic url : String)
deriving DecidableEq, Repr

/-- Modelled from the spec: `Urls::func_docs` — the injected doc-URL
lookup, mapping an anchor to a documentation link. -/
def Urls.func_docs (anchor : String) : String :=
  "https://vrl.dev/functions/" ++ anchor

/-- Source `expression/not.rs`: the `Not` expression owns its inner expression
exclusively. -/
structure Not where
  inner : Expr

namespace Not

/-- Source `expression/not.rs`: the error variants of `Not` construction. -/
inductive ErrorVariant where
  | NonBoolean (k : Kind)

/-- Source `expression/not.rs`: the rendering of an error variant
(`thiserror` message). -/
def ErrorVariant.message : ErrorVariant → String
  | .NonBoolean _ => "non-boolean negation"

/-- Source `expression/not.rs`: a construction error carries its variant, the
span of the `!` operator and the span of the inner expression. -/
structure Error where
  variant : ErrorVariant
  not_span : Span
  expr_span : Span

/-- Source `Not::new`: compute the inner expression's `TypeDef` under the
ambient state; refuse construction unless its kind-set is exactly
boolean. -/
def new (node : Node) (not_span : Span) (state : LocalEnv × ExternalEnv) :
    Except Error Not :=
  let (expr_span, expr) := node.take
  let type_def := expr.typeDef state
  if type_def.is_boolean then
    .ok ⟨expr⟩
  else
    .error ⟨.NonBoolean type_def.kind, not_span, expr_span⟩

/-- Source `Not::resolve`: resolve the inner expression, coerce to boolean
(`try_boolean`), negate, wrap as a boolean value.  The two `?`
propagations of the Rust source become the error/abort branches. -/
def resolve (n : Not) (ctx : Context) : Outcome :=
  match n.inner.resolve ctx with
  | .ok v =>
      match v.try_boolean with
      | .ok b => .ok (.boolean (!b))
      | .error e => .error e
  | .error e => .error e
  | .abort => .abort

/-- Source `Not::type_def`: boolean kind, with the inner expression's
fallibility and abortability. -/
def type_def (n : Not) (state : LocalEnv × ExternalEnv) : TypeDef :=
  let td := n.inner.typeDef state
  let fallible := td.is_fallible
  let abortable := td.is_abortable
  (TypeDef.booleanDef.with_fallibility fallible).with_abortability abortable

/-- Modelled from the spec: the compiled-backend context handed to
`emit_llvm`; its contents are irrelevant because emission is
unimplemented. -/
structure LlvmContext where
  unit : Unit := ()

/-- Source `Not::emit_llvm` is `todo!()`: it panics, so it has no successful
outcome.  The panic is modelled as the error branch of the
`Result<(), String>` return type; no argument produces `.ok`. -/
def emit_llvm (_ : Not) (_ : LocalEnv × ExternalEnv) (_ : LlvmContext) :
    Except String Unit :=
  .error "not implemented"

/-- Source `impl fmt::Display for Not`: `write!(f, "!\x7b\x7d", self.inner)`. -/
def format (n : Not) : String :=
  "!" ++ n.inner.format

/-- Source `DiagnosticMessage::code` for the negation error. -/
def Error.code (e : Error) : Nat :=
  match e.variant with
  | .NonBoolean _ => 660

/-- Source `DiagnosticMessage::labels` for the negation error. -/
def Error.labels (e : Error) : List Label :=
  match e.variant with
  | .NonBoolean kind =>
      [Label.primary "negation only works on boolean values" e.not_span,
       Label.context ("this expression resolves to " ++ kind.render)
         e.expr_span]

/-- Source `DiagnosticMessage::notes` for the negation error. -/
def Error.notes (e : Error) : List Note :=
  match e.variant with
  | .NonBoolean _ =>
      [Note.CoerceValue,
       Note.SeeDocs "type coercion" (Urls.func_docs "#coerce-functions")]

/-- The error value `Not::new` produces on a non-boolean inner kind
(an abbreviation for stating theorems). -/
def nonBooleanError (k : Kind) (not_span expr_span : Span) : Error :=
  ⟨.NonBoolean k, not_span, expr_span⟩

end Not

/-- Modelled from the spec: a context is well-typed for an expression
under a state when the runtime outcome matches the statically inferred
`TypeDef` — a produced value's shape lies in the kind-set, a runtime
error occurs only if the expression is fallible, an abort only if it is
abortable. -/
def wellTyped (e : Expr) (state : LocalEnv × ExternalEnv) (ctx : Context) :
    Prop :=
  match e.resolve ctx with
  | .ok v => (e.typeDef state).kind.contains v.kindOf = true
  | .error _ => (e.typeDef state).fallible = true
  | .abort => (e.typeDef state).abortable = true

/-- Modelled from the spec: `Value::to_string_lossy` — the textual
rendering of an event value, used by the transforms before hashing or
splitting.  Raw bytes render as their (lossy) string; other shapes as a
plain rendering. -/
def Value.to_string_lossy : Value → String
  | .bytes s => s
  | .boolean b => if b then "true" else "false"
  | .integer i => toString i
  | .float bits => toString bits
  | .timestamp t => toString t
  | .regex r => r
  | .array _ => "<array>"
  | .object _ => "<object>"
  | .null => ""

end Vrl

namespace Transforms

/-- An event's log representation: an association list from field paths
(`LookupBuf`, modelled as strings) to values. -/
def Event := List (String × Vrl.Value)

/-- Source `LogEvent::get`: look a field up. -/
def Event.get (e : Event) (k : String) : Option Vrl.Value :=
  (List.find? (fun p => p.1 == k) e).map Prod.snd

/-- Source `LogEvent::insert`: set a field, replacing any previous value. -/
def Event.insert (e : Event) (k : String) (v : Vrl.Value) : Event :=
  (k, v) :: List.filter (fun p => !(p.1 == k)) e

/-- Source `LogEvent::remove`: delete a field. -/
def Event.remove (e : Event) (k : String) : Event :=
  List.filter (fun p => !(p.1 == k)) e

/-- Source `transforms/sample.rs`: the `Sample` transform's state.  `rate` and
`count` are `u64`; the exclude condition (`Box<dyn Condition>`) is an
abstract predicate on events, modelled from the spec's narrow
`check(event) -> bool` interface. -/
structure Sample where
  rate : Nat
  key_field : Option String
  exclude : Option (Event → Bool)
  count : Nat

/-- Source `Sample::new`: accepts any rate (zero included) and starts the
counter at zero. -/
def Sample.new (rate : Nat) (key_field : Option String)
    (exclude : Option (Event → Bool)) : Sample :=
  ⟨rate, key_field, exclude, 0⟩

/-- Whether the configured exclude condition matches the event. -/
def Sample.excludes (s : Sample) (event : Event) : Bool :=
  match s.exclude with
  | some cond => cond event
  | none => false

/-- Source `Sample::transform`: an excluded event passes through untouched;
otherwise the keep/discard decision is `num % rate == 0`, where `num`
is the seahash of the key field's stringified value when the key field
is set and present, and the running counter otherwise.  The counter is
updated to `(count + 1) % rate` before the decision.  The seahash
function (external crate) is an abstract parameter `hash`.  With
`rate == 0` both `%` operations are Rust integer division by zero,
which panics: that outcome is `none`.  The result pairs the updated
transform state with the list of events pushed to `output`. -/
def Sample.transform (hash : String → Nat) (s : Sample) (event : Event) :
    Option (Sample × List Event) :=
  if s.excludes event then
    some (s, [event])
  else if s.rate = 0 then
    none
  else
    let value := s.key_field.bind fun key_field =>
      (event.get key_field).map Vrl.Value.to_string_lossy
    let num := match value with
      | some v => hash v
      | none => s.count
    let s' := { s with count := ((s.count + 1) % 2 ^ 64) % s.rate }
    if num % s.rate = 0 then
      some (s', [event.insert "sample_rate" (.bytes (toString s.rate))])
    else
      some (s', [])

/-- Modelled from the spec: a `types::Conversion` turns the raw bytes of
a split piece into a typed value or fails; it is abstracted as a
function into `Option`. -/
def Conversion := String → Option Vrl.Value

/-- Source `transforms/split.rs`: the `Split` transform's state. -/
structure Split where
  field_names : List (String × Conversion)
  separator : Option String
  field : String
  drop_field : Bool

/-- Source `split`: split on the separator when one is given, else on
whitespace (empty pieces dropped, as `split_whitespace` does). -/
def split (input : String) (separator : Option String) : List String :=
  match separator with
  | some separator => input.splitOn separator
  | none => (input.split Char.isWhitespace).filter (fun s => !s.isEmpty)

/-- One step of `Split::transform`'s field loop: a successful conversion
inserts the field, a failed one only emits an internal event (modelled
as a no-op on the event). -/
def Split.applyField (event : Event) : (String × Conversion) × String → Event
  | ((name, conversion), piece) =>
      match conversion piece with
      | some v => event.insert name v
      | none => event

/-- Source `Split::transform`: read the source field; when present, split its
stringified value and insert each converted piece under the zipped
field names, then optionally drop the source field; when absent, only
emit an internal event.  In every case push the event to `output`. -/
def Split.transform (s : Split) (output : List Event) (event : Event) :
    List Event :=
  let value := (event.get s.field).map Vrl.Value.to_string_lossy
  match value with
  | some value =>
      let pieces := split value s.separator
      let event := (s.field_names.zip pieces).foldl Split.applyField event
      let event := if s.drop_field then event.remove s.field else event
      output ++ [event]
  | none => output ++ [event]

/-- The single event `Split::transform` pushes for a given input: the
parsed event when the source field is present, the untouched event
otherwise. -/
def Split.pushedEvent (s : Split) (event : Event) : Event :=
  let value := (event.get s.field).map Vrl.Value.to_string_lossy
  match value with
  | some value =>
      let pieces := split value s.separator
      let event := (s.field_names.zip pieces).foldl Split.applyField event
      if s.drop_field then event.remove s.field else event
  | none => event

end Transforms

/-! Concrete example values used by the witness theorems. -/

/-- An inner expression behaving as the literal `true`. -/
def exprTrue : Vrl.Expr :=
  ⟨fun _ => .ok (.boolean true), fun _ => Vrl.TypeDef.booleanDef, "true"⟩

/-- An inner expression behaving as the string literal `"abc"`. -/
def exprStr : Vrl.Expr :=
  ⟨fun _ => .ok (.bytes "abc"), fun _ => ⟨{ bytes := true }, false, false⟩,
   "\"abc\""⟩

/-- An inner expression statically typed boolean whose runtime value is
an integer: a model/runtime mismatch. -/
def exprMismatch : Vrl.Expr :=
  ⟨fun _ => .ok (.integer 3), fun _ => Vrl.TypeDef.booleanDef, "x"⟩

/-- The span of the `!` operator in the examples. -/
def notSpan : Vrl.Span := ⟨0, 1⟩

def nodeTrue : Vrl.Node := ⟨⟨1, 5⟩, exprTrue⟩

def nodeStr : Vrl.Node := ⟨⟨1, 6⟩, exprStr⟩

def state0 : Vrl.LocalEnv × Vrl.ExternalEnv := ([], {})

def ctx0 : Vrl.Context := {}

/-- The validated negation of `exprTrue`. -/
def notTrue : Vrl.Not := ⟨exprTrue⟩

/-- The (model/runtime mismatched) negation of `exprMismatch`. -/
def notMismatch : Vrl.Not := ⟨exprMismatch⟩

/-- A stand-in for the seahash function in the witness theorems. -/
def hash0 : String → Nat := fun _ => 0

/-- A sampler configured with rate 0, no key field and no exclusion. -/
def sampleZero : Transforms.Sample := Transforms.Sample.new 0 none none

/-- A sampler with rate 2 keyed on the `message` field. -/
def sampleKeyed : Transforms.Sample :=
  Transforms.Sample.new 2 (some "message") none

def eventEmpty : Transforms.Event := []

def eventMsg : Transforms.Event := [("message", .bytes "hello")]

/-! Helper lemmas shared by the claim theorems. -/

lemma Vrl.Kind.eq_boolean_of_contains {p : Vrl.KindPrim}
    (h : Vrl.Kind.booleanKind.contains p = true) : p = .boolean := by
  cases p <;> first | rfl | exact absurd h (by decide)

lemma Vrl.Value.eq_boolean_of_kindOf {v : Vrl.Value}
    (h : v.kindOf = Vrl.KindPrim.boolean) : ∃ b, v = .boolean b := by
  cases v <;> simp [Vrl.Value.kindOf] at h
  exact ⟨_, rfl⟩

lemma Vrl.Kind.eq_booleanKind_of_is_boolean {k : Vrl.Kind}
    (h : k.is_boolean = true) : k = Vrl.Kind.booleanKind := by
  simpa [Vrl.Kind.is_boolean] using h

lemma Vrl.Not.new_ok {node : Vrl.Node} {sp : Vrl.Span}
    {state : Vrl.LocalEnv × Vrl.ExternalEnv} {n : Vrl.Not}
    (h : Vrl.Not.new node sp state = .ok n) :
    n = ⟨node.expr⟩ ∧ (node.expr.typeDef state).is_boolean = true := by
  unfold Vrl.Not.new at h
  simp only [Vrl.Node.take] at h
  split at h
  · rename_i hb
    simp only [Except.ok.injEq] at h
    exact ⟨h.symm, hb⟩
  · cases h

lemma Vrl.Not.type_def_eq (n : Vrl.Not)
    (state : Vrl.LocalEnv × Vrl.ExternalEnv) :
    n.type_def state =
      ⟨Vrl.Kind.booleanKind, (n.inner.typeDef state).fallible,
       (n.inner.typeDef state).abortable⟩ := rfl

/-- C1: for every `Not` expression successfully built by `Not::new` and
every well-typed context, if the `TypeDef` computed by `Not::type_def`
has `fallible == false`, then `Not::resolve` never returns a
`RuntimeError`. -/
theorem not_type_soundness (node : Vrl.Node) (sp : Vrl.Span)
    (state : Vrl.LocalEnv × Vrl.ExternalEnv) (ctx : Vrl.Context)
    (n : Vrl.Not)
    (hnew : Vrl.Not.new node sp state = .ok n)
    (hfall : (n.type_def state).fallible = false)
    (hwt : Vrl.wellTyped n.inner state ctx) :
    (n.resolve ctx).isError = false := by
  obtain ⟨hn, hb⟩ := Vrl.Not.new_ok hnew
  have hinner : n.inner = node.expr := by rw [hn]
  have hbI : (n.inner.typeDef state).is_boolean = true := by
    rw [hinner]; exact hb
  have hk : (n.inner.typeDef state).kind = Vrl.Kind.booleanKind :=
    Vrl.Kind.eq_booleanKind_of_is_boolean hbI
  have hf : (n.inner.typeDef state).fallible = false := by
    have := Vrl.Not.type_def_eq n state
    rw [this] at hfall
    exact hfall
  unfold Vrl.wellTyped at hwt
  unfold Vrl.Not.resolve
  rcases hres : n.inner.resolve ctx with v | e
  · rw [hres] at hwt
    rw [hk] at hwt
    obtain ⟨b, rfl⟩ :=
      Vrl.Value.eq_boolean_of_kindOf (Vrl.Kind.eq_boolean_of_contains hwt)
    simp [Vrl.Value.try_boolean, Vrl.Outcome.isError]
  · rw [hres] at hwt
    rw [hf] at hwt
    cases hwt
  · simp [Vrl.Outcome.isError]

/-- C1 witness: `!true` is built by `Not::new`, its `TypeDef` is
infallible, and resolution yields no runtime error. -/
theorem not_type_soundness_witness :
    Vrl.Not.new nodeTrue notSpan state0 = .ok notTrue ∧
    (notTrue.type_def state0).fallible = false ∧
    (notTrue.resolve ctx0).isError = false :=
  ⟨rfl, rfl,
   not_type_soundness nodeTrue notSpan state0 ctx0 notTrue rfl rfl rfl⟩

/-- C2: `Not::new` succeeds exactly when the inner kind-set is exactly
boolean; otherwise it fails with the reserved code 660
("non-boolean negation"), exactly one primary label on the operator's
span, a context label on the inner expression's span reporting its
inferred kind, and notes recommending a coercion with a documentation
link. -/
theorem not_new_diagnostics (node : Vrl.Node) (sp : Vrl.Span)
    (state : Vrl.LocalEnv × Vrl.ExternalEnv) :
    ((node.expr.typeDef state).is_boolean = true ↔
      Vrl.Not.new node sp state = .ok ⟨node.expr⟩) ∧
    ((node.expr.typeDef state).is_boolean = false →
      Vrl.Not.new node sp state =
        .error (Vrl.Not.nonBooleanError (node.expr.typeDef state).kind sp
          node.span) ∧
      (Vrl.Not.nonBooleanError (node.expr.typeDef state).kind sp
        node.span).code = 660 ∧
      (Vrl.Not.nonBooleanError (node.expr.typeDef state).kind sp
        node.span).variant.message = "non-boolean negation" ∧
      (Vrl.Not.nonBooleanError (node.expr.typeDef state).kind sp
        node.span).labels =
        [Vrl.Label.primary "negation only works on boolean values" sp,
         Vrl.Label.context ("this expression resolves to " ++
           (node.expr.typeDef state).kind.render) node.span] ∧
      (Vrl.Not.nonBooleanError (node.expr.typeDef state).kind sp
        node.span).labels.filter
          (fun l => l.role == Vrl.LabelRole.primary) =
        [Vrl.Label.primary "negation only works on boolean values" sp] ∧
      (Vrl.Not.nonBooleanError (node.expr.typeDef state).kind sp
        node.span).notes =
        [Vrl.Note.CoerceValue,
         Vrl.Note.SeeDocs "type coercion"
           (Vrl.Urls.func_docs "#coerce-functions")]) := by
  constructor
  · constructor
    · intro hb
      unfold Vrl.Not.new
      simp [Vrl.Node.take, hb]
    · intro hok
      exact (Vrl.Not.new_ok hok).2
  · intro hb
    refine ⟨?_, rfl, rfl, rfl, rfl, rfl⟩
    unfold Vrl.Not.new
    simp [Vrl.Node.take, hb, Vrl.Not.nonBooleanError]

/-- C2 witness: construction of `!"abc"` fails with the full diagnostic
shape at a concrete string-typed inner expression. -/
theorem not_new_diagnostics_witness :
    (nodeStr.expr.typeDef state0).is_boolean = false ∧
    (Vrl.Not.new nodeStr notSpan state0 =
      .error (Vrl.Not.nonBooleanError (nodeStr.expr.typeDef state0).kind
        notSpan nodeStr.span) ∧
     (Vrl.Not.nonBooleanError (nodeStr.expr.typeDef state0).kind notSpan
       nodeStr.span).code = 660 ∧
     (Vrl.Not.nonBooleanError (nodeStr.expr.typeDef state0).kind notSpan
       nodeStr.span).variant.message = "non-boolean negation" ∧
     (Vrl.Not.nonBooleanError (nodeStr.expr.typeDef state0).kind notSpan
       nodeStr.span).labels =
       [Vrl.Label.primary "negation only works on boolean values" notSpan,
        Vrl.Label.context ("this expression resolves to " ++
          (nodeStr.expr.typeDef state0).kind.render) nodeStr.span] ∧
     (Vrl.Not.nonBooleanError (nodeStr.expr.typeDef state0).kind notSpan
       nodeStr.span).labels.filter
         (fun l => l.role == Vrl.LabelRole.primary) =
       [Vrl.Label.primary "negation only works on boolean values" notSpan] ∧
     (Vrl.Not.nonBooleanError (nodeStr.expr.typeDef state0).kind notSpan
       nodeStr.span).notes =
       [Vrl.Note.CoerceValue,
        Vrl.Note.SeeDocs "type coercion"
          (Vrl.Urls.func_docs "#coerce-functions")]) :=
  ⟨rfl, (not_new_diagnostics nodeStr notSpan state0).2 rfl⟩

/-- C3: `Not::type_def` always has kind exactly boolean, and its
fallible and abortable flags equal the inner expression's flags — no
flag set by the sub-expression is dropped. -/
theorem not_type_def_flags (n : Vrl.Not)
    (state : Vrl.LocalEnv × Vrl.ExternalEnv) :
    (n.type_def state).kind = Vrl.Kind.booleanKind ∧
    (n.type_def state).fallible = (n.inner.typeDef state).fallible ∧
    (n.type_def state).abortable = (n.inner.typeDef state).abortable :=
  ⟨rfl, rfl, rfl⟩

/-- C4: when the inner expression resolves to a value coercible to
boolean `b`, `Not::resolve` returns `Ok` of the boolean `!b`. -/
theorem not_resolve_negates (n : Vrl.Not) (ctx : Vrl.Context)
    (v : Vrl.Value) (b : Bool)
    (hres : n.inner.resolve ctx = .ok v)
    (hb : v.try_boolean = .ok b) :
    n.resolve ctx = .ok (.boolean (!b)) := by
  unfold Vrl.Not.resolve
  rw [hres]
  simp [hb]

/-- C4 witness: `!true` resolves to boolean `false`. -/
theorem not_resolve_negates_witness :
    notTrue.inner.resolve ctx0 = .ok (.boolean true) ∧
    Vrl.Value.try_boolean (.boolean true) = .ok true ∧
    notTrue.resolve ctx0 = .ok (.boolean false) :=
  ⟨rfl, rfl, not_resolve_negates notTrue ctx0 (.boolean true) true rfl rfl⟩

/-- C5: when the inner expression resolves to a non-boolean value (a
model/runtime mismatch), `Not::resolve` returns a typed `RuntimeError`
through its result — the error branch of the total `resolve` function,
never a panic. -/
theorem not_resolve_type_mismatch (n : Vrl.Not) (ctx : Vrl.Context)
    (v : Vrl.Value)
    (hres : n.inner.resolve ctx = .ok v)
    (hnb : v.kindOf ≠ .boolean) :
    n.resolve ctx = .error (.typeMismatch .boolean v.kindOf) := by
  unfold Vrl.Not.resolve
  rw [hres]
  cases v
  case boolean b => exact absurd rfl hnb
  all_goals rfl

/-- C5 witness: negating an expression whose runtime value is the
integer 3 yields the typed mismatch error. -/
theorem not_resolve_type_mismatch_witness :
    notMismatch.inner.resolve ctx0 = .ok (.integer 3) ∧
    notMismatch.resolve ctx0 =
      .error (.typeMismatch .boolean Vrl.KindPrim.integer) :=
  ⟨rfl,
   not_resolve_type_mismatch notMismatch ctx0 (.integer 3) rfl
     (by simp [Vrl.Value.kindOf])⟩

/-- C6: `Not::emit_llvm` never succeeds — the `todo!()` body has no
`Ok` outcome for any expression, state or backend context. -/
theorem not_emit_llvm_never_ok (n : Vrl.Not)
    (state : Vrl.LocalEnv × Vrl.ExternalEnv) (ctx : Vrl.Not.LlvmContext) :
    (Vrl.Not.emit_llvm n state ctx).isOk = false := rfl

/-- C7: the formatted rendering of a negation is the character `!`
immediately followed by the inner expression's rendering. -/
theorem not_format_bang (n : Vrl.Not) :
    n.format = "!" ++ n.inner.format ∧
    n.format.data.head? = some '!' ∧
    n.format.data.tail = n.inner.format.data :=
  ⟨rfl, rfl, rfl⟩

/-- C8: `Sample::new` accepts rate 0, but for any event the exclude
condition does not match, `Sample::transform` divides by the rate, so
it panics exactly when the rate is 0: the transform is total on such
events iff `rate >= 1`. -/
theorem sample_rate_zero (hash : String → Nat) (kf : Option String)
    (ex : Option (Transforms.Event → Bool)) (s : Transforms.Sample)
    (e : Transforms.Event)
    (hx : s.excludes e = false) :
    (Transforms.Sample.new 0 kf ex).rate = 0 ∧
    Transforms.Sample.transform hash { s with rate := 0 } e = none ∧
    ((Transforms.Sample.transform hash s e).isSome ↔ 1 ≤ s.rate) := by
  have hx0 : Transforms.Sample.excludes { s with rate := 0 } e = false := hx
  refine ⟨rfl, ?_, ?_⟩
  · unfold Transforms.Sample.transform
    simp [hx0]
  · unfold Transforms.Sample.transform
    rcases Nat.eq_zero_or_pos s.rate with h0 | hpos
    · simp [hx, h0]
    · have hne : s.rate ≠ 0 := Nat.pos_iff_ne_zero.mp hpos
      simp only [hx, Bool.false_eq_true, if_false, hne, ite_false]
      constructor
      · intro _; exact hpos
      · intro _
        split <;> simp

/-- C8 witness: the rate-0 sampler is constructible, and its transform
on a non-excluded event hits the division by zero. -/
theorem sample_rate_zero_witness :
    Transforms.Sample.excludes sampleZero eventEmpty = false ∧
    ((Transforms.Sample.new 0 none none).rate = 0 ∧
     Transforms.Sample.transform hash0 { sampleZero with rate := 0 }
       eventEmpty = none ∧
     ((Transforms.Sample.transform hash0 sampleZero eventEmpty).isSome ↔
       1 ≤ sampleZero.rate)) :=
  ⟨rfl, sample_rate_zero hash0 none none sampleZero eventEmpty rfl⟩

/-- C9: `Split::transform` pushes exactly one event to the output
vector for every input event — a missing source field or a failed
conversion never drops the event. -/
theorem split_pushes_exactly_one (s : Transforms.Split)
    (output : List Transforms.Event) (e : Transforms.Event) :
    Transforms.Split.transform s output e =
      output ++ [Transforms.Split.pushedEvent s e] ∧
    (Transforms.Split.transform s output e).length = output.length + 1 := by
  have h : Transforms.Split.transform s output e =
      output ++ [Transforms.Split.pushedEvent s e] := by
    unfold Transforms.Split.transform Transforms.Split.pushedEvent
    cases hf : Transforms.Event.get e s.field <;> simp [hf]
  refine ⟨h, ?_⟩
  rw [h]
  simp

/-- C10: with a key field that the (non-excluded) event carries, the
keep/discard decision of `Sample::transform` is exactly
`hash(value) % rate == 0` — for every value of the internal counter,
so repeated runs with the same configuration decide identically. -/
theorem sample_keyed_deterministic (hash : String → Nat)
    (s : Transforms.Sample) (e : Transforms.Event) (key_field : String)
    (v : Vrl.Value) (c : Nat)
    (hk : s.key_field = some key_field)
    (hv : e.get key_field = some v)
    (hx : s.excludes e = false)
    (hr : 1 ≤ s.rate) :
    (Transforms.Sample.transform hash { s with count := c } e).map
        Prod.snd =
      some (if hash v.to_string_lossy % s.rate = 0 then
              [e.insert "sample_rate" (.bytes (toString s.rate))]
            else []) := by
  obtain ⟨rate, kf, ex, count⟩ := s
  dsimp only at hk hx hr ⊢
  subst hk
  have hne : rate ≠ 0 := by omega
  have hx' : Transforms.Sample.excludes ⟨rate, some key_field, ex, c⟩ e =
      false := hx
  unfold Transforms.Sample.transform
  simp [hx', hne, hv]
  split <;> rename_i hcond <;> simp [hcond]

/-- C10 witness: the keyed sampler's decision on a concrete event is
the hash test, independent of an arbitrary counter value (7). -/
theorem sample_keyed_deterministic_witness :
    sampleKeyed.key_field = some "message" ∧
    Transforms.Event.get eventMsg "message" = some (.bytes "hello") ∧
    Transforms.Sample.excludes sampleKeyed eventMsg = false ∧
    1 ≤ sampleKeyed.rate ∧
    (Transforms.Sample.transform hash0 { sampleKeyed with count := 7 }
        eventMsg).map Prod.snd =
      some (if hash0 (Vrl.Value.to_string_lossy (.bytes "hello")) %
              sampleKeyed.rate = 0 then
              [Transforms.Event.insert eventMsg "sample_rate"
                (.bytes (toString sampleKeyed.rate))]
            else []) :=
  ⟨rfl, rfl, rfl, by decide,
   sample_keyed_deterministic hash0 sampleKeyed eventMsg "message"
     (.bytes "hello") 7 rfl rfl rfl (by decide)⟩
